import Mathlib

/-!
# Verification of the api-nuggets signal-scoring and filter-chain engine

Shallow embedding of the scoring / filtering core of the repository:
`src/db_scripts/opsell.py` (premium-selling scan) and
`src/db_scripts/penny_losers_gainers.py` (breakout up/down scans).

Conventions of the embedding:
* Prices, volumes and all derived indicator values are rationals (`ℚ`);
  the Python code computes with IEEE floats, none of the verified
  properties depends on rounding of binary floats except `round`, which
  is modelled exactly (round-half-to-even, see `pyRound`).
* A pandas `NaN` (insufficient window) is `Option.none`; a float
  comparison against `NaN` is `false`, as in Python, see `oltQ`, `qltO`,
  `qgtO`, `qgeO`, `qleO`.
* `s.iloc[-k]` is `iloc s k`; the slices `s.iloc[-n:]` and
  `s.iloc[-a:-b]` are `lastSlice s n` and `midSlice s a b` (Lean's
  truncated `Nat` subtraction matches Python's clamping of negative
  slice bounds for the windows the code uses).
* `calculate_hv` (log returns, rolling std, √252) is transcendental, so
  the functions that consume an HV series (`calculate_hv_percentile`,
  `regime_filter`, the scan loop) take the sequence of *defined* HV
  values as an explicit argument instead of recomputing it.
-/

namespace ApiNuggets

/-- `s.iloc[-k]`: the `k`-th element from the end (0 junk outside range). -/
def iloc (l : List ℚ) (k : ℕ) : ℚ :=
  (l.drop (l.length - k)).headD 0

/-- `s.iloc[-n:]`: the last `n` elements (the whole list when `n ≥ length`,
as in Python). -/
def lastSlice (l : List ℚ) (n : ℕ) : List ℚ :=
  l.drop (l.length - n)

/-- `s.iloc[-a:-b]` for `a > b`: elements from position `length - a`
(clamped to 0) up to position `length - b`. -/
def midSlice (l : List ℚ) (a b : ℕ) : List ℚ :=
  (l.drop (l.length - a)).take ((l.length - b) - (l.length - a))

/-- `Series.mean()` of a list of defined values. -/
def mean (l : List ℚ) : ℚ := l.sum / l.length

/-- `Series.diff()` restricted to its defined entries: consecutive
differences `l[i+1] - l[i]`. -/
def diffs : List ℚ → List ℚ
  | [] => []
  | [_] => []
  | a :: b :: t => (b - a) :: diffs (b :: t)

/-- `a < b` where `b` may be `NaN`: false on `NaN`, as for floats. -/
def qltO (a : ℚ) (b : Option ℚ) : Bool :=
  match b with
  | none => false
  | some q => decide (a < q)

/-- `a < b` where `a` may be `NaN`. -/
def oltQ (a : Option ℚ) (b : ℚ) : Bool :=
  match a with
  | none => false
  | some q => decide (q < b)

/-- `a > b` where `b` may be `NaN`. -/
def qgtO (a : ℚ) (b : Option ℚ) : Bool :=
  match b with
  | none => false
  | some q => decide (q < a)

/-- `a ≥ b` where `b` may be `NaN`. -/
def qgeO (a : ℚ) (b : Option ℚ) : Bool :=
  match b with
  | none => false
  | some q => decide (q ≤ a)

/-- `a ≤ b` where `b` may be `NaN`. -/
def qleO (a : ℚ) (b : Option ℚ) : Bool :=
  match b with
  | none => false
  | some q => decide (a ≤ q)

/-- Round to the nearest integer, ties to the even integer: the rounding
of Python 3's builtin `round`. -/
def roundHalfEven (q : ℚ) : ℤ :=
  let f := ⌊q⌋
  let r := q - f
  if r < 1 / 2 then f
  else if 1 / 2 < r then f + 1
  else if 2 ∣ f then f else f + 1

/-- Python's `round(q, n)` on an exactly represented value. -/
def pyRound (n : ℕ) (q : ℚ) : ℚ :=
  (roundHalfEven (q * 10 ^ n) : ℚ) / 10 ^ n

/-- The `SCAN_CONFIG` dictionary of `opsell.py` as a value
(fields in the dictionary's order: `min_iv_percentile`,
`iv_filter_strict`, `drawdown_min`, `drawdown_max`, `dma_window`,
`rsi_min`, `max_5d_drop`, `max_10d_drop_for_regime`,
`hv_trend_threshold`, `top_n`, `min_history`). -/
structure ScanConfig where
  min_iv_percentile : ℚ
  iv_filter_strict : ℚ
  drawdown_min : ℚ
  drawdown_max : ℚ
  dma_window : ℕ
  rsi_min : ℚ
  max_5d_drop : ℚ
  max_10d_drop_for_regime : ℚ
  hv_trend_threshold : ℚ
  top_n : ℕ
  min_history : ℕ
deriving DecidableEq

/-- The configured values of `opsell.py`, lines 15–27. -/
def SCAN_CONFIG : ScanConfig :=
  ⟨5, 50, -9, -3, 50, 25, -7, -7, 0, 3, 260⟩

/-- `rolling(w).mean().iloc[-1]` over a series of defined values:
`NaN` (`none`) when fewer than `w` points exist. -/
def sma_last (l : List ℚ) (w : ℕ) : Option ℚ :=
  if l.length < w then none else some (mean (lastSlice l w))

/-- `rolling(w).max().iloc[-1]`. -/
def rolling_max_last (l : List ℚ) (w : ℕ) : Option ℚ :=
  if l.length < w then none
  else some ((lastSlice l w).foldr max ((lastSlice l w).headD 0))

/-- `rolling(w).min().iloc[-1]`. -/
def rolling_min_last (l : List ℚ) (w : ℕ) : Option ℚ :=
  if l.length < w then none
  else some ((lastSlice l w).foldr min ((lastSlice l w).headD 0))

/-- `gain.rolling(period).mean().iloc[-1]` of `calculate_rsi`
(`opsell.py` lines 105–109): mean of the positive parts of the last
`period` close-to-close deltas. -/
def avgGainLast (close : List ℚ) (period : ℕ) : ℚ :=
  ((diffs (lastSlice close (period + 1))).map (fun d => max d 0)).sum / period

/-- `loss.rolling(period).mean().iloc[-1]` of `calculate_rsi`. -/
def avgLossLast (close : List ℚ) (period : ℕ) : ℚ :=
  ((diffs (lastSlice close (period + 1))).map (fun d => max (-d) 0)).sum / period

/-- `calculate_rsi(close, period).iloc[-1]` (`opsell.py` lines 100–113).
`none` models a `NaN` result. With fewer than `period + 1` closes the
rolling means are `NaN`. Otherwise `rs = avg_gain / avg_loss` is float
division: `0/0` is `NaN` (and `NaN` propagates through
`100 - 100/(1+rs)`), while `g/0` with `g > 0` is `+∞`, for which
`100 - 100/(1+rs)` evaluates to `100`. -/
def calculate_rsi_last (close : List ℚ) (period : ℕ) : Option ℚ :=
  if close.length < period + 1 then none
  else
    let g := avgGainLast close period
    let l := avgLossLast close period
    if l = 0 then
      if g = 0 then none else some 100
    else some (100 - 100 / (1 + g / l))

/-- `calculate_hv_percentile` (`opsell.py` lines 115–127), parameterized
by the sequence `hv` of defined values of
`calculate_hv(df["close"]).dropna()`: keep the trailing 252 values,
return `NaN → None` when fewer than 100 remain, else the fraction of the
window strictly below its last value, scaled to 0–100. -/
def calculate_hv_percentile (hv : List ℚ) : Option ℚ :=
  let t := lastSlice hv 252
  if t.length < 100 then none
  else
    let current := iloc t 1
    some (((t.filter (fun x => decide (x < current))).length : ℚ) / t.length * 100)

/-- `check_three_day_decline` (`opsell.py` lines 133–141):
`closes[-1] < closes[-2] < closes[-3]`. -/
def check_three_day_decline (closes : List ℚ) : Bool :=
  decide (iloc closes 1 < iloc closes 2) && decide (iloc closes 2 < iloc closes 3)

/-- The 3-day drawdown `(c[-1] / c[-4] - 1) * 100` of `check_drawdown`. -/
def drawdown3 (closes : List ℚ) : ℚ :=
  (iloc closes 1 / iloc closes 4 - 1) * 100

/-- `check_drawdown` (`opsell.py` lines 143–154): the drawdown together
with `drawdown_min <= dd <= drawdown_max`. -/
def check_drawdown (cfg : ScanConfig) (closes : List ℚ) : Bool × ℚ :=
  let dd := drawdown3 closes
  (decide (cfg.drawdown_min ≤ dd) && decide (dd ≤ cfg.drawdown_max), dd)

/-- The 10-day return `(close[-1] / close[-11] - 1) * 100` of
`regime_filter`. -/
def ret_10d (closes : List ℚ) : ℚ :=
  (iloc closes 1 / iloc closes 11 - 1) * 100

/-- `hv.iloc[-5:].mean() - hv.iloc[-15:-5].mean()` of `regime_filter`,
over the defined HV values. -/
def hv_trend (hv : List ℚ) : ℚ :=
  mean (lastSlice hv 5) - mean (midSlice hv 15 5)

/-- `regime_filter` (`opsell.py` lines 160–178), with the HV series
passed in: reject as an accelerating selloff when the 10-day return is
below `max_10d_drop_for_regime` and the HV trend exceeds
`hv_trend_threshold`. -/
def regime_filter (cfg : ScanConfig) (closes hv : List ℚ) : Bool × String :=
  if ret_10d closes < cfg.max_10d_drop_for_regime ∧
      cfg.hv_trend_threshold < hv_trend hv then
    (false, "Accelerating selloff")
  else (true, "PASS")

/-- The rejection reasons of `pre_trade_filter`, one constructor per
formatted reason string of `opsell.py` lines 196, 200, 204, 207 (the
scan's test `"IV too low" in reason` holds exactly for `ivTooLow`). -/
inductive PreTradeReason where
  | belowDMA
  | rsiTooLow
  | fiveDayDropTooLarge
  | ivTooLow
  | passAll
deriving DecidableEq

/-- The 5-day return `(c[-1] / c[-6] - 1) * 100` of `pre_trade_filter`. -/
def ret_5d (closes : List ℚ) : ℚ :=
  (iloc closes 1 / iloc closes 6 - 1) * 100

/-- `pre_trade_filter` (`opsell.py` lines 184–209): the four short-
circuiting sub-checks (trend / RSI / 5-day severity / strict IV). A
`NaN` moving average or RSI compares `false`, so the check passes, as
in the float code. -/
def pre_trade_filter (cfg : ScanConfig) (closes : List ℚ) (iv_percentile : ℚ) :
    Bool × PreTradeReason :=
  if qltO (iloc closes 1) (sma_last closes cfg.dma_window) then
    (false, .belowDMA)
  else if oltQ (calculate_rsi_last closes 14) cfg.rsi_min then
    (false, .rsiTooLow)
  else if ret_5d closes < cfg.max_5d_drop then
    (false, .fiveDayDropTooLarge)
  else if iv_percentile < cfg.iv_filter_strict then
    (false, .ivTooLow)
  else (true, .passAll)

/-- `score_signal` (`opsell.py` lines 215–220):
`round(abs(drawdown) + ivp / 10, 2)`. -/
def score_signal (drawdown ivp : ℚ) : ℚ :=
  pyRound 2 (|drawdown| + ivp / 10)

/-- The candidate dictionary `run_daily_scan` appends (`opsell.py`
lines 257–263 and 269–274): symbol, `round(drawdown, 2)`,
`round(ivp, 1)`, `score_signal(drawdown, ivp)`. -/
structure Signal where
  symbol : String
  drawdown_pct : ℚ
  iv_percentile : ℚ
  score : ℚ
deriving DecidableEq

/-- Where one iteration of `run_daily_scan`'s loop puts a symbol: the
hard list `signals_pass_all`, the soft list `signals_except_iv_strict`
(with the pre-trade reason), or neither (`continue`). -/
inductive Bucket where
  | skipped
  | hard (s : Signal)
  | soft (s : Signal) (reason : PreTradeReason)
deriving DecidableEq

/-- One iteration of the loop of `run_daily_scan` (`opsell.py`
lines 229–276), for one symbol: `odf` is `get_price_data(symbol)`
(`none` on fetch failure) reduced to its close column, `hv` the defined
HV values of that series. The duplicated `pre_trade_filter` call of
lines 251/254 computes the same pair twice and is collapsed. -/
def run_daily_scan_step (cfg : ScanConfig) (symbol : String)
    (odf : Option (List ℚ)) (hv : List ℚ) : Bucket :=
  match odf with
  | none => .skipped
  | some closes =>
    if closes.length < cfg.min_history then .skipped
    else if ¬ check_three_day_decline closes then .skipped
    else if ¬ (check_drawdown cfg closes).1 then .skipped
    else
      match calculate_hv_percentile hv with
      | none => .skipped
      | some ivp =>
        if ivp < cfg.min_iv_percentile then .skipped
        else if ¬ (regime_filter cfg closes hv).1 then .skipped
        else if ¬ (pre_trade_filter cfg closes ivp).1 ∧
            (pre_trade_filter cfg closes ivp).2 = .ivTooLow then
          .soft ⟨symbol, pyRound 2 (check_drawdown cfg closes).2, pyRound 1 ivp,
                 score_signal (check_drawdown cfg closes).2 ivp⟩
            (pre_trade_filter cfg closes ivp).2
        else if ¬ (pre_trade_filter cfg closes ivp).1 then .skipped
        else
          .hard ⟨symbol, pyRound 2 (check_drawdown cfg closes).2, pyRound 1 ivp,
                 score_signal (check_drawdown cfg closes).2 ivp⟩

/-- A fetched price/volume frame of `penny_losers_gainers.py`: the close
column, and the volume column when the payload had one. -/
structure Frame where
  closes : List ℚ
  volumes : Option (List ℚ)
deriving DecidableEq

/-- The tuple `score_stock` / `score_stock_down` returns: score,
breakdown lines, last five closes and last five volumes (the date
formatting of the evidence strings is elided; a missing volume column
makes the volume evidence raise, see `score_stock`). -/
structure ScoreResult where
  score : ℕ
  breakdown : List String
  last_5_close : List ℚ
  last_5_volume : List ℚ
deriving DecidableEq

/-- Sub-signal 1 of `score_stock`: close above the 5- and 10-bar SMA. -/
def upSig1 (f : Frame) : Bool :=
  decide (mean (lastSlice f.closes 5) < iloc f.closes 1) &&
    decide (mean (lastSlice f.closes 10) < iloc f.closes 1)

/-- Sub-signal 2: most recent 1-bar percent change above 5. -/
def upSig2 (f : Frame) : Bool :=
  decide ((5 : ℚ) < (iloc f.closes 1 / iloc f.closes 2 - 1) * 100)

/-- Sub-signal 3: prior-bar percent change above 3. -/
def upSig3 (f : Frame) : Bool :=
  decide ((3 : ℚ) < (iloc f.closes 2 / iloc f.closes 3 - 1) * 100)

/-- Sub-signal 4: close within 5% of the 20-bar rolling high (`false`
when fewer than 20 bars make the rolling max `NaN`). -/
def upSig4 (f : Frame) : Bool :=
  qgeO (iloc f.closes 1) ((rolling_max_last f.closes 20).map (fun h => 95 / 100 * h))

/-- Sub-signal 5: last volume above 1.5× the 5-bar average volume
(`false` when the frame has no volume column). -/
def upSig5 (f : Frame) : Bool :=
  match f.volumes with
  | none => false
  | some vols => qgtO (iloc vols 1) ((sma_last vols 5).map (fun m => 3 / 2 * m))

/-- The count of satisfied upward sub-signals. -/
def upCount (f : Frame) : ℕ :=
  (upSig1 f).toNat + (upSig2 f).toNat + (upSig3 f).toNat +
    (upSig4 f).toNat + (upSig5 f).toNat

/-- `score_stock` (`penny_losers_gainers.py` lines 165–211). Mirrors the
source: a `None` frame or fewer than 10 bars short-circuits to score 0;
five independent one-point sub-signals; the `last_5_volume` evidence of
line 209 reads `last_5['volume']` outside the `'volume' in df.columns`
guard of line 199, so a frame without a volume column raises `KeyError`
there – modelled as `none`. -/
def score_stock (df : Option Frame) : Option ScoreResult :=
  match df with
  | none => some ⟨0, [], [], []⟩
  | some f =>
    if f.closes.length < 10 then some ⟨0, [], [], []⟩
    else
      let b1 := upSig1 f
      let b2 := upSig2 f
      let b3 := upSig3 f
      let b4 := upSig4 f
      let b5 := upSig5 f
      let score := b1.toNat + b2.toNat + b3.toNat + b4.toNat + b5.toNat
      let breakdown :=
        (if b1 then ["Price above MA5 & MA10"] else []) ++
        (if b2 then ["Recent price surge >5%"] else []) ++
        (if b3 then ["Previous day surge >3%"] else []) ++
        (if b4 then ["Near 20-day high breakout"] else []) ++
        (if b5 then ["Volume surge >1.5 * 5-day avg"] else [])
      match f.volumes with
      | none => none
      | some vols => some ⟨score, breakdown, lastSlice f.closes 5, lastSlice vols 5⟩

/-- Sub-signal 1 of `score_stock_down`: close below both SMAs. -/
def downSig1 (f : Frame) : Bool :=
  decide (iloc f.closes 1 < mean (lastSlice f.closes 5)) &&
    decide (iloc f.closes 1 < mean (lastSlice f.closes 10))

/-- Sub-signal 2: most recent 1-bar percent change below −5. -/
def downSig2 (f : Frame) : Bool :=
  decide ((iloc f.closes 1 / iloc f.closes 2 - 1) * 100 < (-5 : ℚ))

/-- Sub-signal 3: prior-bar percent change below −3. -/
def downSig3 (f : Frame) : Bool :=
  decide ((iloc f.closes 2 / iloc f.closes 3 - 1) * 100 < (-3 : ℚ))

/-- Sub-signal 4: close within 5% of the 20-bar rolling low. -/
def downSig4 (f : Frame) : Bool :=
  qleO (iloc f.closes 1) ((rolling_min_last f.closes 20).map (fun h => 105 / 100 * h))

/-- The count of satisfied downward sub-signals (sub-signal 5, the
volume surge, is shared with the upward variant). -/
def downCount (f : Frame) : ℕ :=
  (downSig1 f).toNat + (downSig2 f).toNat + (downSig3 f).toNat +
    (downSig4 f).toNat + (upSig5 f).toNat

/-- `score_stock_down` (`penny_losers_gainers.py` lines 240–286),
the downward mirror of `score_stock` (same volume-evidence `KeyError`
on a frame without a volume column, line 284). -/
def score_stock_down (df : Option Frame) : Option ScoreResult :=
  match df with
  | none => some ⟨0, [], [], []⟩
  | some f =>
    if f.closes.length < 10 then some ⟨0, [], [], []⟩
    else
      let b1 := downSig1 f
      let b2 := downSig2 f
      let b3 := downSig3 f
      let b4 := downSig4 f
      let b5 := upSig5 f
      let score := b1.toNat + b2.toNat + b3.toNat + b4.toNat + b5.toNat
      let breakdown :=
        (if b1 then ["Price below MA5 & MA10"] else []) ++
        (if b2 then ["Recent price drop >5%"] else []) ++
        (if b3 then ["Previous day drop >3%"] else []) ++
        (if b4 then ["Near 20-day low breakout"] else []) ++
        (if b5 then ["Volume surge >1.5 * 5-day avg"] else [])
      match f.volumes with
      | none => none
      | some vols => some ⟨score, breakdown, lastSlice f.closes 5, lastSlice vols 5⟩

/-- The candidate dictionary `pick_stocks` appends (`penny_losers_gainers.py`
lines 224–230). -/
structure PennyRec where
  symbol : String
  score : ℕ
  breakdown : List String
  last_5_close : List ℚ
  last_5_volume : List ℚ
deriving DecidableEq

/-- One iteration of the loop of `pick_stocks` (and of
`pick_sp500_stocks_up`): score the fetched frame and append the record
exactly when the score is strictly greater than 1. `none` propagates the
`KeyError` of `score_stock`. -/
def pick_stocks_step (acc : List PennyRec) (symbol : String)
    (odf : Option Frame) : Option (List PennyRec) :=
  match score_stock odf with
  | none => none
  | some r =>
    if 1 < r.score then
      some (acc ++ [⟨symbol, r.score, r.breakdown, r.last_5_close, r.last_5_volume⟩])
    else some acc

/-- One iteration of the loop of `pick_sp500_stocks_down`. -/
def pick_stocks_down_step (acc : List PennyRec) (symbol : String)
    (odf : Option Frame) : Option (List PennyRec) :=
  match score_stock_down odf with
  | none => none
  | some r =>
    if 1 < r.score then
      some (acc ++ [⟨symbol, r.score, r.breakdown, r.last_5_close, r.last_5_volume⟩])
    else some acc

/-- Insert `x` into a list sorted by `key` descending, before the first
element whose key is not greater: the insertion step of a stable
descending sort. -/
def insertDesc (key : α → ℚ) (x : α) : List α → List α
  | [] => [x]
  | y :: ys => if key x < key y then y :: insertDesc key x ys else x :: y :: ys

/-- Stable sort by `key`, descending: the semantics of Python's
`sorted(..., key=..., reverse=True)` / `list.sort(..., reverse=True)`
(CPython's sort is stable, and `reverse=True` keeps equal keys in input
order). -/
def sortDesc (key : α → ℚ) : List α → List α
  | [] => []
  | x :: xs => insertDesc key x (sortDesc key xs)

/-- Sort descending and truncate to the top `n`: the
`sorted(...)[:top_n]` / `results[:TOP_N]` ranking of both scan scripts. -/
def rank (key : α → ℚ) (n : ℕ) (l : List α) : List α :=
  (sortDesc key l).take n

/-! ## Concrete evaluation data

Synthetic series used by the witnesses and counterexamples below. -/

/-- A 10-bar frame (flat at 1, then a jump to 2) that earns exactly two
breakout points (above both SMAs, last-bar surge > 5%). -/
def exFrame : Frame :=
  ⟨[1, 1, 1, 1, 1, 1, 1, 1, 1, 2], some (List.replicate 10 100)⟩

/-- The candidate record `score_stock` produces for `exFrame`. -/
def exRec (symbol : String) : PennyRec :=
  ⟨symbol, 2, ["Price above MA5 & MA10", "Recent price surge >5%"],
   [1, 1, 1, 1, 2], List.replicate 5 100⟩

/-- A small configuration (`min_history` 20, `dma_window` 10, other
thresholds as configured) for concrete runs of the premium-selling
pipeline. -/
def witnessConfig : ScanConfig :=
  ⟨5, 50, -9, -3, 10, 25, -7, -7, 0, 3, 20⟩

/-- Twenty closes: flat at 90, a spike to 100, then the 3-day decline
100 → 98 → 97 → 95 (3-day drawdown −5%, 5- and 10-day returns positive,
close above the 10-bar SMA, RSI 200/3). -/
def witnessCloses : List ℚ :=
  List.replicate 16 90 ++ [100, 98, 97, 95]

/-- 100 defined HV values whose last value 1.5 ranks above exactly the
15 values equal to 1: HV percentile 15 (above the soft floor 5, below
the strict floor 50). -/
def witnessHv : List ℚ :=
  List.replicate 84 2 ++ List.replicate 15 1 ++ [3 / 2]

/-- Eleven closes with a −10% 10-day return. -/
def regimeCloses : List ℚ := List.replicate 10 100 ++ [90]

/-- Fifteen HV values with a positive trend (last five at 2, the ten
before at 1). -/
def regimeHvRising : List ℚ := List.replicate 10 1 ++ List.replicate 5 2

/-- Fifteen flat HV values: zero trend. -/
def regimeHvFlat : List ℚ := List.replicate 15 1

/-! ## Helper lemmas -/

lemma bool_toNat_le_one (b : Bool) : b.toNat ≤ 1 := by cases b <;> simp

lemma lastSlice_of_le (l : List ℚ) (n : ℕ) (h : l.length ≤ n) :
    lastSlice l n = l := by
  unfold lastSlice
  rw [Nat.sub_eq_zero_of_le h, List.drop_zero]

lemma iloc_append_singleton (A : List ℚ) (c : ℚ) : iloc (A ++ [c]) 1 = c := by
  unfold iloc
  have h : (A ++ [c]).length - 1 = A.length := by simp
  rw [h, List.drop_left]
  rfl

lemma length_lastSlice (l : List ℚ) (n : ℕ) :
    (lastSlice l n).length = min n l.length := by
  simp [lastSlice]
  omega

lemma mem_insertDesc {α : Type _} (key : α → ℚ) (x : α) (l : List α) (a : α) :
    a ∈ insertDesc key x l ↔ a = x ∨ a ∈ l := by
  induction l with
  | nil => simp [insertDesc]
  | cons y ys ih =>
    unfold insertDesc
    split
    · simp only [List.mem_cons, ih]
      tauto
    · simp only [List.mem_cons]

lemma pairwise_insertDesc {α : Type _} (key : α → ℚ) (x : α) (l : List α)
    (h : l.Pairwise (fun a b => key b ≤ key a)) :
    (insertDesc key x l).Pairwise (fun a b => key b ≤ key a) := by
  induction l with
  | nil => simp [insertDesc]
  | cons y ys ih =>
    rcases List.pairwise_cons.1 h with ⟨hy, hys⟩
    unfold insertDesc
    split
    · refine List.pairwise_cons.2 ⟨?_, ih hys⟩
      intro z hz
      rcases (mem_insertDesc key x ys z).1 hz with rfl | hzys
      · exact le_of_lt ‹key z < key y›
      · exact hy z hzys
    · refine List.pairwise_cons.2 ⟨?_, h⟩
      intro z hz
      rcases List.mem_cons.1 hz with rfl | hzys
      · exact le_of_not_lt ‹¬ key x < key z›
      · exact le_trans (hy z hzys) (le_of_not_lt ‹¬ key x < key y›)

lemma sortDesc_pairwise {α : Type _} (key : α → ℚ) (l : List α) :
    (sortDesc key l).Pairwise (fun a b => key b ≤ key a) := by
  induction l with
  | nil => simp [sortDesc]
  | cons x xs ih => exact pairwise_insertDesc key x _ ih

lemma filter_insertDesc {α : Type _} (key : α → ℚ) (s : ℚ) (x : α) (l : List α) :
    (insertDesc key x l).filter (fun a => decide (key a = s)) =
      (if key x = s then [x] else []) ++ l.filter (fun a => decide (key a = s)) := by
  induction l with
  | nil =>
    simp only [insertDesc, List.filter, List.append_nil]
    by_cases hx : key x = s <;> simp [hx]
  | cons y ys ih =>
    unfold insertDesc
    split
    · rw [List.filter_cons, ih]
      by_cases hx : key x = s
      · have hy : ¬ key y = s := by
          rw [← hx]
          exact ne_of_gt ‹key x < key y›
        simp [hx, hy, List.filter_cons]
      · by_cases hy : key y = s <;> simp [hx, hy, List.filter_cons]
    · rw [List.filter_cons, List.filter_cons]
      by_cases hx : key x = s <;> simp [hx]

lemma sortDesc_filter {α : Type _} (key : α → ℚ) (s : ℚ) (l : List α) :
    (sortDesc key l).filter (fun a => decide (key a = s)) =
      l.filter (fun a => decide (key a = s)) := by
  induction l with
  | nil => rfl
  | cons x xs ih =>
    rw [sortDesc, filter_insertDesc, ih, List.filter_cons]
    by_cases hx : key x = s <;> simp [hx]

lemma witnessHv_percentile : calculate_hv_percentile witnessHv = some 15 := by
  simp only [calculate_hv_percentile, witnessHv]
  have hls := lastSlice_of_le
    (List.replicate 84 (2 : ℚ) ++ List.replicate 15 1 ++ [3 / 2]) 252 (by simp)
  simp only [hls, iloc_append_singleton]
  rw [if_neg (by simp)]
  rw [List.filter_append, List.filter_append,
    List.filter_replicate_of_neg (by simp only [decide_eq_true_eq]; norm_num),
    List.filter_replicate_of_pos (by simp only [decide_eq_true_eq]; norm_num)]
  simp only [List.filter_cons, List.filter_nil, decide_eq_true_eq]
  rw [if_neg (by norm_num)]
  simp only [List.length_append, List.length_replicate, List.length_cons,
    List.length_nil, List.nil_append]
  norm_num

set_option maxRecDepth 4000 in
lemma witness_scan_step_eval :
    run_daily_scan_step witnessConfig "X" (some witnessCloses) witnessHv =
      Bucket.soft ⟨"X", -5, 15, 13 / 2⟩ .ivTooLow := by
  have h1 : ¬ (witnessCloses.length < witnessConfig.min_history) := by decide
  have h2 : check_three_day_decline witnessCloses = true := by
    with_unfolding_all decide
  have h3 : (check_drawdown witnessConfig witnessCloses).1 = true := by
    with_unfolding_all decide
  have h5 : ¬ ((15 : ℚ) < witnessConfig.min_iv_percentile) := by
    with_unfolding_all decide
  have h6 : ¬ (ret_10d witnessCloses < witnessConfig.max_10d_drop_for_regime ∧
      witnessConfig.hv_trend_threshold < hv_trend witnessHv) :=
    fun hc => absurd hc.1 (by with_unfolding_all decide)
  have h6b : (regime_filter witnessConfig witnessCloses witnessHv).1 = true := by
    unfold regime_filter
    rw [if_neg h6]
  have h7 : pre_trade_filter witnessConfig witnessCloses 15 = (false, .ivTooLow) := by
    with_unfolding_all decide
  simp only [run_daily_scan_step, witnessHv_percentile]
  rw [if_neg h1]
  rw [if_neg (by simp [h2])]
  rw [if_neg (by simp [h3])]
  rw [if_neg h5]
  rw [if_neg (by simp [h6b])]
  rw [if_pos (by simp [h7])]
  rw [h7]
  with_unfolding_all decide

/-! ## The claims -/

/-- C2: the premium-selling score is `|drawdown| + iv_percentile / 10`
rounded to two decimals (Python `round`, half to even), and in
particular `score_signal (-5) 60 = 11`. -/
theorem score_signal_formula :
    (∀ d p : ℚ, score_signal d p = pyRound 2 (|d| + p / 10)) ∧
      score_signal (-5) 60 = 11 :=
  ⟨fun _ _ => rfl, by with_unfolding_all decide⟩

/-- C3 (the failing edge case): on a flat 15-bar series the trailing
average loss is zero, yet `calculate_rsi` yields `NaN` (`0/0`
propagates through `100 - 100/(1+rs)`) instead of the value 100 the
spec defines; the inf-arithmetic path does yield 100 when the average
gain is positive. -/
theorem rsi_zero_loss_flat_series_nan :
    avgLossLast (List.replicate 15 100) 14 = 0 ∧
      calculate_rsi_last (List.replicate 15 100) 14 = none ∧
      calculate_rsi_last (List.replicate 14 100 ++ [101]) 14 = some 100 := by
  with_unfolding_all decide

/-- C7: ranking sorts by score descending, keeps candidates of equal
score in first-seen input order (the per-score sublists are unchanged),
truncates to at most `n` entries, and on scores `[3, 7, 7, 1]` with
`n = 2` returns the two 7-score candidates in input order. -/
theorem rank_sorted_stable_truncated :
    (∀ (α : Type) (key : α → ℚ) (l : List α) (n : ℕ),
      (rank key n l).Pairwise (fun a b => key b ≤ key a) ∧
      (rank key n l).length ≤ n ∧
      ∀ s : ℚ, (sortDesc key l).filter (fun a => decide (key a = s)) =
        l.filter (fun a => decide (key a = s))) ∧
    rank Prod.snd 2 [("a", (3 : ℚ)), ("b", 7), ("c", 7), ("d", 1)] =
      [("b", 7), ("c", 7)] := by
  refine ⟨fun α key l n => ⟨?_, ?_, fun s => sortDesc_filter key s l⟩, by decide⟩
  · exact List.Pairwise.sublist (List.take_sublist n _) (sortDesc_pairwise key l)
  · simp only [rank, List.length_take]
    exact Nat.min_le_left n (sortDesc key l).length

/-- C8: the 3-day drawdown filter accepts exactly when the drawdown lies
in the closed interval `[drawdown_min, drawdown_max]`. -/
theorem check_drawdown_closed_interval (cfg : ScanConfig) (closes : List ℚ)
    (_h : 4 ≤ closes.length) :
    (check_drawdown cfg closes).1 = true ↔
      cfg.drawdown_min ≤ drawdown3 closes ∧
        drawdown3 closes ≤ cfg.drawdown_max := by
  simp [check_drawdown]

/-- Witness for C8 at both endpoints: drawdowns of exactly −9
(`drawdown_min`) and exactly −3 (`drawdown_max`) are accepted. -/
theorem check_drawdown_closed_interval_witness :
    ((check_drawdown SCAN_CONFIG [100, 1, 1, 91]).1 = true ∧
      drawdown3 [100, 1, 1, 91] = SCAN_CONFIG.drawdown_min) ∧
    ((check_drawdown SCAN_CONFIG [100, 1, 1, 97]).1 = true ∧
      drawdown3 [100, 1, 1, 97] = SCAN_CONFIG.drawdown_max) :=
  ⟨⟨(check_drawdown_closed_interval SCAN_CONFIG [100, 1, 1, 91] (by decide)).mpr
      (by with_unfolding_all decide), by with_unfolding_all decide⟩,
   ⟨(check_drawdown_closed_interval SCAN_CONFIG [100, 1, 1, 97] (by decide)).mpr
      (by with_unfolding_all decide), by with_unfolding_all decide⟩⟩

/-- C5: the regime filter rejects exactly when the 10-day return is
strictly below `max_10d_drop_for_regime` and the HV trend (mean of the
last 5 HV values minus mean of the 10 before them) strictly exceeds
`hv_trend_threshold`, and the rejection reason is then
"Accelerating selloff". -/
theorem regime_filter_iff (cfg : ScanConfig) (closes hv : List ℚ)
    (_h1 : 11 ≤ closes.length) (_h2 : 15 ≤ hv.length) :
    ((regime_filter cfg closes hv).1 = false ↔
      ret_10d closes < cfg.max_10d_drop_for_regime ∧
        cfg.hv_trend_threshold < hv_trend hv) ∧
    (regime_filter cfg closes hv).2 =
      (if ret_10d closes < cfg.max_10d_drop_for_regime ∧
          cfg.hv_trend_threshold < hv_trend hv
        then "Accelerating selloff" else "PASS") := by
  unfold regime_filter
  split <;> simp_all

/-- Witness for C5 with `max_10d_drop_for_regime = -7` and
`hv_trend_threshold = 0` (the configured values): a −10% 10-day return
with rising HV is rejected as "Accelerating selloff"; the same return
with flat HV passes. -/
theorem regime_filter_iff_witness :
    regime_filter SCAN_CONFIG regimeCloses regimeHvRising =
      (false, "Accelerating selloff") ∧
    regime_filter SCAN_CONFIG regimeCloses regimeHvFlat = (true, "PASS") := by
  have hr := regime_filter_iff SCAN_CONFIG regimeCloses regimeHvRising
    (by decide) (by decide)
  have hf := regime_filter_iff SCAN_CONFIG regimeCloses regimeHvFlat
    (by decide) (by decide)
  constructor
  · have h1 := hr.1.mpr (by with_unfolding_all decide)
    have h2 := hr.2
    rw [if_pos (by with_unfolding_all decide)] at h2
    exact Prod.ext h1 h2
  · have hcond : ¬ (ret_10d regimeCloses < SCAN_CONFIG.max_10d_drop_for_regime ∧
        SCAN_CONFIG.hv_trend_threshold < hv_trend regimeHvFlat) := by
      with_unfolding_all decide
    have h1 : (regime_filter SCAN_CONFIG regimeCloses regimeHvFlat).1 = true := by
      cases hb : (regime_filter SCAN_CONFIG regimeCloses regimeHvFlat).1
      · exact absurd (hf.1.mp hb) hcond
      · rfl
    have h2 := hf.2
    rw [if_neg hcond] at h2
    exact Prod.ext h1 h2

/-- C9: the HV percentile is undefined exactly when fewer than 100
defined trailing HV points are available, and otherwise is the fraction
of the trailing-252 window strictly below the current (last) HV value,
scaled to 0–100. -/
theorem hv_percentile_spec (hv : List ℚ) :
    (calculate_hv_percentile hv = none ↔ hv.length < 100) ∧
    (∀ p, calculate_hv_percentile hv = some p →
      p = (((lastSlice hv 252).filter
            (fun x => decide (x < iloc (lastSlice hv 252) 1))).length : ℚ) /
          (lastSlice hv 252).length * 100) := by
  have hlen := length_lastSlice hv 252
  constructor
  · simp only [calculate_hv_percentile]
    split
    · simp only [true_iff]
      omega
    · simp only [reduceCtorEq, false_iff]
      omega
  · intro p hp
    simp only [calculate_hv_percentile] at hp
    split at hp
    · exact absurd hp (by simp)
    · exact (Option.some.inj hp).symm

/-- Witness for C9: 101 defined HV points give the percentile
`100/101 × 100` (100 of 101 window values below the current value 2);
99 points give `None`. -/
theorem hv_percentile_spec_witness :
    calculate_hv_percentile (List.replicate 100 1 ++ [2]) = some (10000 / 101) ∧
    calculate_hv_percentile (List.replicate 99 1) = none := by
  constructor
  · simp only [calculate_hv_percentile]
    rw [lastSlice_of_le _ _ (by simp), iloc_append_singleton]
    rw [if_neg (by simp)]
    rw [List.filter_append,
      List.filter_replicate_of_pos (by simp only [decide_eq_true_eq]; norm_num)]
    simp only [List.filter_cons, List.filter_nil, decide_eq_true_eq]
    rw [if_neg (by norm_num)]
    simp only [List.length_append, List.length_replicate, List.length_cons,
      List.length_nil]
    norm_num
  · exact (hv_percentile_spec (List.replicate 99 1)).1.mpr (by decide)

/-- C6: once the earlier stages (history, 3-day decline, drawdown, IV
floor, regime) have passed, `pre_trade_filter` reports the strict-IV
reason exactly when the moving-average, RSI and 5-day-drop sub-checks
pass and the IV percentile is below `iv_filter_strict`; such a symbol is
put in the soft bucket with its rounded drawdown, rounded IV percentile,
score and reason, while a symbol failing any earlier pre-trade sub-check
goes to neither list. -/
theorem strict_iv_soft_bucket (cfg : ScanConfig) (symbol : String)
    (closes hv : List ℚ) (ivp : ℚ)
    (hlen : cfg.min_history ≤ closes.length)
    (hdec : check_three_day_decline closes = true)
    (hdd : (check_drawdown cfg closes).1 = true)
    (hivp : calculate_hv_percentile hv = some ivp)
    (hmin : ¬ ivp < cfg.min_iv_percentile)
    (hreg : (regime_filter cfg closes hv).1 = true) :
    (pre_trade_filter cfg closes ivp = (false, .ivTooLow) ↔
      qltO (iloc closes 1) (sma_last closes cfg.dma_window) = false ∧
      oltQ (calculate_rsi_last closes 14) cfg.rsi_min = false ∧
      ¬ ret_5d closes < cfg.max_5d_drop ∧
      ivp < cfg.iv_filter_strict) ∧
    (pre_trade_filter cfg closes ivp = (false, .ivTooLow) →
      run_daily_scan_step cfg symbol (some closes) hv =
        .soft ⟨symbol, pyRound 2 (check_drawdown cfg closes).2, pyRound 1 ivp,
               score_signal (check_drawdown cfg closes).2 ivp⟩ .ivTooLow) ∧
    (∀ reason, pre_trade_filter cfg closes ivp = (false, reason) →
      reason ≠ .ivTooLow →
      run_daily_scan_step cfg symbol (some closes) hv = .skipped) := by
  refine ⟨?_, ?_, ?_⟩
  · cases hA : qltO (iloc closes 1) (sma_last closes cfg.dma_window) with
    | true => simp [pre_trade_filter, hA]
    | false =>
      cases hB : oltQ (calculate_rsi_last closes 14) cfg.rsi_min with
      | true => simp [pre_trade_filter, hA, hB]
      | false =>
        by_cases hC : ret_5d closes < cfg.max_5d_drop
        · simp [pre_trade_filter, hA, hB, hC]
        · by_cases hD : ivp < cfg.iv_filter_strict
          · simp [pre_trade_filter, hA, hB, hC, hD]
          · simp [pre_trade_filter, hA, hB, hC, hD]
  · intro hpt
    simp only [run_daily_scan_step, hivp]
    rw [if_neg (by omega)]
    rw [if_neg (by simp [hdec])]
    rw [if_neg (by simp [hdd])]
    rw [if_neg hmin]
    rw [if_neg (by simp [hreg])]
    rw [if_pos (by simp [hpt])]
    rw [hpt]
  · intro reason hpt hne
    simp only [run_daily_scan_step, hivp]
    rw [if_neg (by omega)]
    rw [if_neg (by simp [hdec])]
    rw [if_neg (by simp [hdd])]
    rw [if_neg hmin]
    rw [if_neg (by simp [hreg])]
    rw [if_neg (by simp [hpt, hne])]
    rw [if_pos (by simp [hpt])]

set_option maxRecDepth 4000 in
/-- Witness for C6 on a concrete 20-bar series with IV percentile 15:
it passes every stage except the strict-IV sub-check and lands in the
soft bucket with drawdown −5, IV percentile 15, score 6.5 and the
strict-IV reason. -/
theorem strict_iv_soft_bucket_witness :
    run_daily_scan_step witnessConfig "X" (some witnessCloses) witnessHv =
      Bucket.soft ⟨"X", -5, 15, 13 / 2⟩ .ivTooLow := by
  have hreg : (regime_filter witnessConfig witnessCloses witnessHv).1 = true := by
    unfold regime_filter
    rw [if_neg (fun hc => absurd hc.1 (by with_unfolding_all decide))]
  have h := strict_iv_soft_bucket witnessConfig "X" witnessCloses witnessHv 15
    (by decide) (by with_unfolding_all decide) (by with_unfolding_all decide)
    witnessHv_percentile (by with_unfolding_all decide) hreg
  have hpt : pre_trade_filter witnessConfig witnessCloses 15 = (false, .ivTooLow) := by
    with_unfolding_all decide
  exact (h.2.1 hpt).trans (by with_unfolding_all decide)

/-- C1: both breakout scorers yield a score of at most 5 that is, for a
long-enough series, exactly the count of satisfied sub-signals, and the
scan loops retain a symbol as a candidate exactly when its score is
strictly greater than 1. -/
theorem breakout_score_range_and_acceptance :
    (∀ f r, score_stock (some f) = some r →
      r.score ≤ 5 ∧ (10 ≤ f.closes.length → r.score = upCount f)) ∧
    (∀ f r, score_stock_down (some f) = some r →
      r.score ≤ 5 ∧ (10 ≤ f.closes.length → r.score = downCount f)) ∧
    (∀ acc symbol f r, score_stock (some f) = some r →
      (pick_stocks_step acc symbol (some f) =
          some (acc ++
            [⟨symbol, r.score, r.breakdown, r.last_5_close, r.last_5_volume⟩]) ↔
        1 < r.score)) ∧
    (∀ acc symbol f r, score_stock_down (some f) = some r →
      (pick_stocks_down_step acc symbol (some f) =
          some (acc ++
            [⟨symbol, r.score, r.breakdown, r.last_5_close, r.last_5_volume⟩]) ↔
        1 < r.score)) := by
  refine ⟨?_, ?_, ?_, ?_⟩
  · intro f r h
    simp only [score_stock] at h
    split at h
    · rename_i hl
      have hr := Option.some.inj h
      subst hr
      exact ⟨by simp, fun hge => absurd hge (by omega)⟩
    · rename_i hl
      cases hvol : f.volumes with
      | none => simp [hvol] at h
      | some vols =>
        simp only [hvol] at h
        have hr := Option.some.inj h
        subst hr
        refine ⟨?_, fun _ => rfl⟩
        have h1 := bool_toNat_le_one (upSig1 f)
        have h2 := bool_toNat_le_one (upSig2 f)
        have h3 := bool_toNat_le_one (upSig3 f)
        have h4 := bool_toNat_le_one (upSig4 f)
        have h5 := bool_toNat_le_one (upSig5 f)
        show (upSig1 f).toNat + (upSig2 f).toNat + (upSig3 f).toNat +
          (upSig4 f).toNat + (upSig5 f).toNat ≤ 5
        omega
  · intro f r h
    simp only [score_stock_down] at h
    split at h
    · rename_i hl
      have hr := Option.some.inj h
      subst hr
      exact ⟨by simp, fun hge => absurd hge (by omega)⟩
    · rename_i hl
      cases hvol : f.volumes with
      | none => simp [hvol] at h
      | some vols =>
        simp only [hvol] at h
        have hr := Option.some.inj h
        subst hr
        refine ⟨?_, fun _ => rfl⟩
        have h1 := bool_toNat_le_one (downSig1 f)
        have h2 := bool_toNat_le_one (downSig2 f)
        have h3 := bool_toNat_le_one (downSig3 f)
        have h4 := bool_toNat_le_one (downSig4 f)
        have h5 := bool_toNat_le_one (upSig5 f)
        show (downSig1 f).toNat + (downSig2 f).toNat + (downSig3 f).toNat +
          (downSig4 f).toNat + (upSig5 f).toNat ≤ 5
        omega
  · intro acc symbol f r h
    unfold pick_stocks_step
    simp only [h]
    split
    · rename_i h1
      simp [h1]
    · rename_i h1
      simp only [h1, iff_false]
      intro heq
      have := congrArg List.length (Option.some.inj heq)
      simp at this
  · intro acc symbol f r h
    unfold pick_stocks_down_step
    simp only [h]
    split
    · rename_i h1
      simp [h1]
    · rename_i h1
      simp only [h1, iff_false]
      intro heq
      have := congrArg List.length (Option.some.inj heq)
      simp at this

set_option maxRecDepth 4000 in
/-- Witness for C1: the 10-bar frame `exFrame` scores exactly 2 (above
both SMAs, last-bar surge), so the scan loop appends its candidate
record. -/
theorem breakout_score_range_and_acceptance_witness :
    pick_stocks_step [] "P" (some exFrame) = some ([] ++ [exRec "P"]) :=
  (breakout_score_range_and_acceptance.2.2.1 [] "P" exFrame
      ⟨2, ["Price above MA5 & MA10", "Recent price surge >5%"], [1, 1, 1, 1, 2],
        List.replicate 5 100⟩
      (by with_unfolding_all decide)).mpr (by decide)

set_option maxRecDepth 4000 in
/-- C4 fails as stated: `exFrame` has only 10 bars — too short for the
20-bar rolling-extreme indicator the chain uses — yet it is retained as
a breakout candidate (score 2 > 1). -/
theorem short_series_candidate_counterexample :
    pick_stocks_step [] "Y" (some exFrame) = some [exRec "Y"] ∧
      exFrame.closes.length < 20 := by
  with_unfolding_all decide

/-- C4 amended: a breakout candidate record is produced only for a frame
with at least 10 bars (the `score_stock` guard) and a volume column, and
a premium-selling record only for a series meeting `min_history`; the
20-bar indicator window is not otherwise enforced. -/
theorem candidate_min_history_amended :
    (∀ acc symbol odf out, pick_stocks_step acc symbol odf = some out →
      out ≠ acc → ∃ f, odf = some f ∧ 10 ≤ f.closes.length ∧ f.volumes.isSome) ∧
    (∀ acc symbol odf out, pick_stocks_down_step acc symbol odf = some out →
      out ≠ acc → ∃ f, odf = some f ∧ 10 ≤ f.closes.length ∧ f.volumes.isSome) ∧
    (∀ cfg symbol odf hv, run_daily_scan_step cfg symbol odf hv ≠ .skipped →
      ∃ closes, odf = some closes ∧ cfg.min_history ≤ closes.length) := by
  refine ⟨?_, ?_, ?_⟩
  · intro acc symbol odf out h hne
    cases odf with
    | none =>
      exfalso
      apply hne
      have hstep : pick_stocks_step acc symbol none = some acc := rfl
      rw [hstep] at h
      exact (Option.some.inj h).symm
    | some f =>
      refine ⟨f, rfl, ?_⟩
      by_cases hlt : f.closes.length < 10
      · exfalso
        apply hne
        have hsc : score_stock (some f) = some ⟨0, [], [], []⟩ := by
          simp only [score_stock]
          rw [if_pos hlt]
        have hstep : pick_stocks_step acc symbol (some f) = some acc := by
          unfold pick_stocks_step
          simp [hsc]
        rw [hstep] at h
        exact (Option.some.inj h).symm
      · refine ⟨by omega, ?_⟩
        by_contra hns
        rw [Option.not_isSome_iff_eq_none] at hns
        have hsc : score_stock (some f) = none := by
          simp only [score_stock]
          rw [if_neg hlt]
          simp [hns]
        have hstep : pick_stocks_step acc symbol (some f) = none := by
          unfold pick_stocks_step
          simp [hsc]
        rw [hstep] at h
        exact absurd h (by simp)
  · intro acc symbol odf out h hne
    cases odf with
    | none =>
      exfalso
      apply hne
      have hstep : pick_stocks_down_step acc symbol none = some acc := rfl
      rw [hstep] at h
      exact (Option.some.inj h).symm
    | some f =>
      refine ⟨f, rfl, ?_⟩
      by_cases hlt : f.closes.length < 10
      · exfalso
        apply hne
        have hsc : score_stock_down (some f) = some ⟨0, [], [], []⟩ := by
          simp only [score_stock_down]
          rw [if_pos hlt]
        have hstep : pick_stocks_down_step acc symbol (some f) = some acc := by
          unfold pick_stocks_down_step
          simp [hsc]
        rw [hstep] at h
        exact (Option.some.inj h).symm
      · refine ⟨by omega, ?_⟩
        by_contra hns
        rw [Option.not_isSome_iff_eq_none] at hns
        have hsc : score_stock_down (some f) = none := by
          simp only [score_stock_down]
          rw [if_neg hlt]
          simp [hns]
        have hstep : pick_stocks_down_step acc symbol (some f) = none := by
          unfold pick_stocks_down_step
          simp [hsc]
        rw [hstep] at h
        exact absurd h (by simp)
  · intro cfg symbol odf hv h
    cases odf with
    | none => exact absurd rfl h
    | some closes =>
      refine ⟨closes, rfl, ?_⟩
      by_contra hlt
      push_neg at hlt
      apply h
      simp only [run_daily_scan_step]
      rw [if_pos hlt]

set_option maxRecDepth 4000 in
/-- Witness for C4 (amended): the retained `exFrame` indeed has 10 bars
and a volume column, and a retained premium-selling series meets
`min_history`. -/
theorem candidate_min_history_amended_witness :
    (∃ f, (some exFrame : Option Frame) = some f ∧
      10 ≤ f.closes.length ∧ f.volumes.isSome) ∧
    (∃ closes, (some witnessCloses : Option (List ℚ)) = some closes ∧
      witnessConfig.min_history ≤ closes.length) :=
  ⟨candidate_min_history_amended.1 [] "Z" (some exFrame) ([] ++ [exRec "Z"])
      (by with_unfolding_all decide) (by decide),
   candidate_min_history_amended.2.2 witnessConfig "X" (some witnessCloses)
      witnessHv (by rw [witness_scan_step_eval]; decide)⟩

/-- C10 (the failing case): a 10-bar frame without a volume column makes
`score_stock` and `score_stock_down` raise (`KeyError` on
`last_5['volume']`, outside the `'volume' in df.columns` guard) instead
of returning the scored tuple. -/
theorem score_stock_missing_volume_keyerror :
    score_stock (some ⟨[1, 1, 1, 1, 1, 1, 1, 1, 1, 2], none⟩) = none ∧
      score_stock_down (some ⟨[1, 1, 1, 1, 1, 1, 1, 1, 1, 2], none⟩) = none := by
  decide

end ApiNuggets
